import Mathlib

/-!
Verification of the Expense-Tracker state-management core.

The definitions below are a shallow embedding of the repository's
TypeScript source:
  - the domain model and the reducer come from `context/AppReducer.tsx`
    (the file shipped as `src/unnamed/part_001`);
  - the normalizer comes from `context/AppContext.tsx`;
  - the derivation functions come from `screens/BudgetScreen.tsx`,
    `screens/SummaryScreen.tsx` and `screens/HomeScreen.tsx`;
  - the budget-alert helpers come from `services/notifications.ts`.

JavaScript numbers are modelled as rationals, nullable fields as
`Option`, and the JavaScript truthiness test on a nullable string
(absent / null / empty string are all falsy) as `strOptTruthy`.
-/

namespace ExpenseTracker

/-- Transaction type enum from `AppReducer.tsx`. -/
inductive TransactionType where
  | expense
  | income
deriving DecidableEq, Repr

/-- Account type enum from `AppReducer.tsx`. -/
inductive AccountType where
  | cash
  | bank
  | credit
  | debit
  | investment
  | other
deriving DecidableEq, Repr

/-- Account entity from `AppReducer.tsx`. -/
structure Account where
  id : String
  name : String
  type : AccountType
  accountNumber : String
  initialBalance : Rat
  includeInBalance : Bool
deriving DecidableEq, Repr

/-- Category entity from `AppReducer.tsx`. -/
structure Category where
  id : String
  name : String
  icon : String
deriving DecidableEq, Repr

/-- Budget entity from `AppReducer.tsx`; `month` is a YYYY-MM key. -/
structure Budget where
  id : String
  categoryId : String
  amount : Rat
  month : String
deriving DecidableEq, Repr

/-- Notification preferences from `AppReducer.tsx`. -/
structure NotificationPreferences where
  dailyReminderEnabled : Bool
  dailyReminderHour : Nat
  dailyReminderMinute : Nat
deriving DecidableEq, Repr

/-- Currency option from `AppReducer.tsx`. -/
structure CurrencyOption where
  code : String
  symbol : String
  name : String
  locale : Option String
deriving DecidableEq, Repr

/-- Theme preference enum from `AppReducer.tsx`. -/
inductive ThemePreference where
  | light
  | dark
  | system
deriving DecidableEq, Repr

/-- Transaction entity from `AppReducer.tsx`; `categoryId` and
`receiptUri` are nullable. -/
structure Transaction where
  id : String
  title : String
  amount : Rat
  date : String
  categoryId : Option String
  type : TransactionType
  accountId : String
  receiptUri : Option String
deriving DecidableEq, Repr

/-- Date-filter preset enum from `AppReducer.tsx`. -/
inductive DateFilterPreset where
  | thisMonth
  | lastMonth
  | thisYear
  | custom
deriving DecidableEq, Repr

/-- Date filter from `AppReducer.tsx`. -/
structure DateFilter where
  preset : DateFilterPreset
  startDate : String
  endDate : String
deriving DecidableEq, Repr

/-- Aggregate application state from `AppReducer.tsx`. -/
structure AppState where
  transactions : List Transaction
  categories : List Category
  dateFilter : DateFilter
  budgets : List Budget
  currency : CurrencyOption
  themePreference : ThemePreference
  accounts : List Account
  notificationPreferences : NotificationPreferences
deriving DecidableEq, Repr

/-- Payload of the account actions.  The reducer applies nullish
coalescing to `accountNumber` and `includeInBalance`, so those two
fields may be absent in a raw payload and are modelled as `Option`. -/
structure AccountPayload where
  id : String
  name : String
  type : AccountType
  accountNumber : Option String
  initialBalance : Rat
  includeInBalance : Option Bool
deriving DecidableEq, Repr

/-- The action union from `AppReducer.tsx`. -/
inductive AppAction where
  | addTransaction (payload : Transaction)
  | updateTransaction (payload : Transaction)
  | deleteTransaction (id : String)
  | setTransactions (payload : List Transaction)
  | setCategories (payload : List Category)
  | addCategory (payload : Category)
  | updateCategory (payload : Category)
  | deleteCategory (id : String)
  | setDateFilter (payload : DateFilter)
  | setBudgets (payload : List Budget)
  | addBudget (payload : Budget)
  | updateBudget (payload : Budget)
  | deleteBudget (id : String)
  | setCurrency (payload : CurrencyOption)
  | setThemePreference (payload : ThemePreference)
  | setAccounts (payload : List AccountPayload)
  | addAccount (payload : AccountPayload)
  | updateAccount (payload : AccountPayload)
  | deleteAccount (id : String) (reassignAccountId : Option String)
  | setNotificationPreferences (payload : NotificationPreferences)
deriving DecidableEq, Repr

/-- `DEFAULT_CATEGORY_ID` from `AppReducer.tsx`. -/
def DEFAULT_CATEGORY_ID : String := "uncategorized"

/-- `DEFAULT_ACCOUNT_ID` from `AppReducer.tsx`. -/
def DEFAULT_ACCOUNT_ID : String := "account-default-cash"

/-- `DEFAULT_ACCOUNT` from `AppReducer.tsx`. -/
def DEFAULT_ACCOUNT : Account :=
  { id := DEFAULT_ACCOUNT_ID
    name := "Cash"
    type := AccountType.cash
    accountNumber := ""
    initialBalance := 0
    includeInBalance := true }

/-- `DEFAULT_NOTIFICATION_PREFERENCES` from `AppReducer.tsx`. -/
def DEFAULT_NOTIFICATION_PREFERENCES : NotificationPreferences :=
  { dailyReminderEnabled := false
    dailyReminderHour := 20
    dailyReminderMinute := 0 }

/-- `DEFAULT_CATEGORIES` from `AppReducer.tsx`. -/
def DEFAULT_CATEGORIES : List Category :=
  [ { id := DEFAULT_CATEGORY_ID, name := "Uncategorized", icon := "dots-circle" }
  , { id := "food", name := "Food", icon := "silverware-fork-knife" }
  , { id := "transport", name := "Transport", icon := "transit-connection-variant" }
  , { id := "bills", name := "Bills", icon := "file-document-outline" }
  , { id := "entertainment", name := "Entertainment", icon := "movie-open-outline" }
  , { id := "other", name := "Other", icon := "flash" } ]

/-- JavaScript truthiness of a nullable string value: absent, null and
the empty string are falsy, every other string is truthy. -/
def strOptTruthy : Option String → Bool
  | none => false
  | some s => !(s == "")

/-- `initialState` from `AppReducer.tsx`.  `buildInitialDateFilter`
reads the current clock, so the initial date filter is passed in as a
parameter. -/
def initialState (df : DateFilter) : AppState :=
  { transactions := []
    categories := DEFAULT_CATEGORIES
    dateFilter := df
    budgets := []
    currency := { code := "USD", symbol := "$", name := "US Dollar", locale := some "en-US" }
    themePreference := ThemePreference.system
    accounts := [DEFAULT_ACCOUNT]
    notificationPreferences := DEFAULT_NOTIFICATION_PREFERENCES }

/-- `ensureTransaction` from `AppReducer.tsx`: re-derives `type` from
the sign of `amount`, falls an invalid `accountId` back to the first
account (or the default account id), and coalesces `receiptUri` to
null.  `categoryId` is passed through unchanged. -/
def ensureTransaction (state : AppState) (transaction : Transaction) : Transaction :=
  let type := if 0 ≤ transaction.amount then TransactionType.income else TransactionType.expense
  let accountId :=
    if state.accounts.any (fun account => account.id == transaction.accountId) then
      transaction.accountId
    else
      match state.accounts.head? with
      | some account => account.id
      | none => DEFAULT_ACCOUNT_ID
  { transaction with type := type, accountId := accountId, receiptUri := transaction.receiptUri }

/-- Resolution of a raw account payload, as written inline in the
`SET_ACCOUNTS` / `ADD_ACCOUNT` cases of the reducer: `accountNumber`
coalesces to the empty string and `includeInBalance` to true. -/
def resolveAccountPayload (payload : AccountPayload) : Account :=
  { id := payload.id
    name := payload.name
    type := payload.type
    accountNumber := payload.accountNumber.getD ""
    initialBalance := payload.initialBalance
    includeInBalance := payload.includeInBalance.getD true }

/-- View of a full account record as an action payload (every optional
field present); used to embed `[DEFAULT_ACCOUNT]` as a `SET_ACCOUNTS`
payload. -/
def accountToPayload (account : Account) : AccountPayload :=
  { id := account.id
    name := account.name
    type := account.type
    accountNumber := some account.accountNumber
    initialBalance := account.initialBalance
    includeInBalance := some account.includeInBalance }

/-- `AppReducer` from `AppReducer.tsx`, case by case.

In `UPDATE_TRANSACTION`, `UPDATE_CATEGORY` and `UPDATE_BUDGET` the
source merges `\x7b...transaction, ...action.payload\x7d`; the payload
type carries every field, so the merge equals the payload itself. -/
def AppReducer (state : AppState) (action : AppAction) : AppState :=
  match action with
  | AppAction.addTransaction payload =>
      { state with transactions := ensureTransaction state payload :: state.transactions }
  | AppAction.updateTransaction payload =>
      { state with transactions := state.transactions.map (fun transaction =>
          if transaction.id == payload.id then ensureTransaction state payload else transaction) }
  | AppAction.deleteTransaction id =>
      { state with transactions := state.transactions.filter (fun transaction => transaction.id != id) }
  | AppAction.setTransactions payload =>
      { state with transactions := payload.map (ensureTransaction state) }
  | AppAction.setCategories payload =>
      { state with categories := if 0 < payload.length then payload else DEFAULT_CATEGORIES }
  | AppAction.addCategory payload =>
      { state with categories := state.categories ++ [payload] }
  | AppAction.updateCategory payload =>
      { state with categories := state.categories.map (fun category =>
          if category.id == payload.id then payload else category) }
  | AppAction.deleteCategory id =>
      if id == DEFAULT_CATEGORY_ID then state
      else
        let categories := state.categories.filter (fun category => category.id != id)
        let transactions := state.transactions.map (fun transaction =>
          if transaction.categoryId == some id then
            { transaction with categoryId := some DEFAULT_CATEGORY_ID }
          else transaction)
        let budgets := state.budgets.filter (fun budget => budget.categoryId != id)
        { state with
            categories := if 0 < categories.length then categories else DEFAULT_CATEGORIES
            transactions := transactions
            budgets := budgets }
  | AppAction.setDateFilter payload =>
      { state with dateFilter := payload }
  | AppAction.setBudgets payload =>
      { state with budgets := payload }
  | AppAction.addBudget payload =>
      { state with budgets := state.budgets ++ [payload] }
  | AppAction.updateBudget payload =>
      { state with budgets := state.budgets.map (fun budget =>
          if budget.id == payload.id then payload else budget) }
  | AppAction.deleteBudget id =>
      { state with budgets := state.budgets.filter (fun budget => budget.id != id) }
  | AppAction.setCurrency payload =>
      { state with currency := payload }
  | AppAction.setThemePreference payload =>
      { state with themePreference := payload }
  | AppAction.setAccounts payload =>
      { state with accounts :=
          ((if 0 < payload.length then payload else [accountToPayload DEFAULT_ACCOUNT]).map
            resolveAccountPayload) }
  | AppAction.addAccount payload =>
      { state with accounts := state.accounts ++ [resolveAccountPayload payload] }
  | AppAction.updateAccount payload =>
      { state with accounts := state.accounts.map (fun account =>
          if account.id == payload.id then
            { id := payload.id
              name := payload.name
              type := payload.type
              accountNumber := payload.accountNumber.getD ""
              initialBalance := payload.initialBalance
              includeInBalance := payload.includeInBalance.getD account.includeInBalance }
          else account) }
  | AppAction.deleteAccount id reassignAccountId =>
      let remainingAccounts := state.accounts.filter (fun account => account.id != id)
      let accounts := if 0 < remainingAccounts.length then remainingAccounts else [DEFAULT_ACCOUNT]
      let transactions :=
        (state.transactions.filter (fun transaction =>
            transaction.accountId != id || strOptTruthy reassignAccountId)).map
          (fun transaction =>
            if transaction.accountId == id then
              match reassignAccountId with
              | some reassign =>
                  if reassign == "" then transaction
                  else { transaction with accountId := reassign }
              | none => transaction
            else transaction)
      { state with accounts := accounts, transactions := transactions }
  | AppAction.setNotificationPreferences payload =>
      { state with notificationPreferences := payload }

/-- Sequencing of reducer actions from an initial state. -/
def applyActions (state : AppState) (actions : List AppAction) : AppState :=
  actions.foldl AppReducer state

/-- Raw persisted transaction record from `AppContext.tsx`: either the
current shape or the legacy shape.  `amount` is `some q` when the
stored value parses as the number `q` and `none` when it is
non-numeric (the source coerces that to 0 via `Number(x) or 0`);
`title` and `date` are `none` when nullish; `category`, `categoryId`
and `accountId` are `none` when the field is absent or null (the
source tests them for truthiness, under which absent, null and the
empty string all behave alike); `receiptUri` is `none` when absent or
null. -/
structure RawTransaction where
  id : String
  title : Option String
  amount : Option Rat
  date : Option String
  category : Option String
  type : Option TransactionType
  categoryId : Option String
  accountId : Option String
  receiptUri : Option String
deriving DecidableEq, Repr

/-- `normalizeTransaction` from `AppContext.tsx`.  The source defaults
an absent `date` to the current clock value, passed in here as `now`. -/
def normalizeTransaction (now : String) (transaction : RawTransaction) : Transaction :=
  let legacyAmount := transaction.amount.getD 0
  let resolvedType :=
    if transaction.type == some TransactionType.income || 0 ≤ legacyAmount then
      TransactionType.income
    else TransactionType.expense
  let amount := if resolvedType == TransactionType.expense then -|legacyAmount| else |legacyAmount|
  let categoryId :=
    if strOptTruthy transaction.categoryId then transaction.categoryId.getD ""
    else if strOptTruthy transaction.category then
      match DEFAULT_CATEGORIES.find? (fun category =>
          category.name.toLower == (transaction.category.getD "").toLower) with
      | some legacyMatch => legacyMatch.id
      | none => DEFAULT_CATEGORY_ID
    else DEFAULT_CATEGORY_ID
  { id := transaction.id
    title := transaction.title.getD ""
    amount := amount
    date := transaction.date.getD now
    categoryId := some categoryId
    type := if 0 ≤ amount then TransactionType.income else TransactionType.expense
    accountId := if strOptTruthy transaction.accountId then transaction.accountId.getD ""
                 else DEFAULT_ACCOUNT_ID
    receiptUri := transaction.receiptUri }

/-- View of a normalized transaction as a raw record, for re-running
the normalizer over its own output: every field of the current shape
is present, and there is no legacy `category` field. -/
def transactionToRaw (transaction : Transaction) : RawTransaction :=
  { id := transaction.id
    title := some transaction.title
    amount := some transaction.amount
    date := some transaction.date
    category := none
    type := some transaction.type
    categoryId := transaction.categoryId
    accountId := some transaction.accountId
    receiptUri := transaction.receiptUri }

/-- `normalizeAccount` from `AppContext.tsx`. -/
def normalizeAccount (account : AccountPayload) : Account :=
  { id := account.id
    name := account.name
    type := account.type
    accountNumber := account.accountNumber.getD ""
    initialBalance := account.initialBalance
    includeInBalance := account.includeInBalance.getD true }

/-!
Derivation layer.

The screens turn a transaction's ISO date string into a YYYY-MM month
key with the external `date-fns` library (`format(new Date(d),
'yyyy-MM')`), skipping records whose date fails to parse.  The
functions below take that conversion as an explicit parameter
`monthOf`, returning `none` for an unparsable date.  `isoMonthKeyOpt`
is the concrete instance used on well-formed ISO-8601 strings, whose
month key is the first seven characters.
-/

/-- Month key of a well-formed ISO-8601 date string (model of
`format(new Date(d), 'yyyy-MM')` with a parse-validity check). -/
def isoMonthKeyOpt (date : String) : Option String :=
  if 10 ≤ date.length then some (date.take 7) else none

/-- Per-category expense sum of `expensesByCategory` in
`BudgetScreen.tsx`: the map accumulates the raw signed `amount` of
every expense transaction with a truthy `categoryId`, a parsable date
and a month key equal to the selected month; looking the map up at a
category yields the sum of the contributions keyed by it (0 when
absent). -/
def expensesByCategoryGet (monthOf : String → Option String)
    (transactions : List Transaction) (selectedMonth : String) (categoryId : String) : Rat :=
  transactions.foldl
    (fun acc transaction =>
      if transaction.type == TransactionType.expense
          && strOptTruthy transaction.categoryId
          && transaction.categoryId == some categoryId
          && monthOf transaction.date == some selectedMonth then
        acc + transaction.amount
      else acc)
    0

/-- The stats attached to one budget by `budgetsWithStats` in
`BudgetScreen.tsx` (the same formulas appear in `budgetSummaries` in
`SummaryScreen.tsx`). -/
structure BudgetStats where
  spent : Rat
  remaining : Rat
  progress : Rat
deriving DecidableEq, Repr

/-- `budgetsWithStats` in `BudgetScreen.tsx`, restricted to the stats
of one budget of the selected month. -/
def budgetWithStats (monthOf : String → Option String)
    (transactions : List Transaction) (selectedMonth : String) (budget : Budget) : BudgetStats :=
  let spent := expensesByCategoryGet monthOf transactions selectedMonth budget.categoryId
  let remaining := max 0 (budget.amount - spent)
  let progress := if budget.amount = 0 then 0 else min 1 (spent / budget.amount)
  { spent := spent, remaining := remaining, progress := progress }

/-- `totalIncome` of the summary totals in `SummaryScreen.tsx`:
adds the raw `amount` of every transaction whose `type` is income. -/
def summaryTotalIncome (transactions : List Transaction) : Rat :=
  transactions.foldl
    (fun acc transaction =>
      if transaction.type == TransactionType.income then acc + transaction.amount else acc)
    0

/-- `totalExpenses` of the summary totals in `SummaryScreen.tsx`:
adds the raw signed `amount` of every transaction whose `type` is not
income. -/
def summaryTotalExpenses (transactions : List Transaction) : Rat :=
  transactions.foldl
    (fun acc transaction =>
      if transaction.type == TransactionType.income then acc else acc + transaction.amount)
    0

/-- `netBalance` in `SummaryScreen.tsx`. -/
def summaryNetBalance (transactions : List Transaction) : Rat :=
  summaryTotalIncome transactions - summaryTotalExpenses transactions

/-- `expenseTotal` in `HomeScreen.tsx`: the transactions with a
negative amount, summed by absolute value. -/
def homeExpenseTotal (transactions : List Transaction) : Rat :=
  (transactions.filter (fun transaction => decide (transaction.amount < 0))).foldl
    (fun sum transaction => sum + |transaction.amount|) 0

/-- `incomeTotal` in `HomeScreen.tsx`: the transactions with a
non-negative amount, summed. -/
def homeIncomeTotal (transactions : List Transaction) : Rat :=
  (transactions.filter (fun transaction => decide (0 ≤ transaction.amount))).foldl
    (fun sum transaction => sum + transaction.amount) 0

/-!
Budget-alert path: `evaluateBudgetAlert` in `BudgetScreen.tsx` together
with the idempotency-flag helpers of `services/notifications.ts`.  The
AsyncStorage flag store is modelled as the list of keys that have been
marked sent; the notification dispatch itself is external and is
reported through the `fired` field of the result.
-/

/-- The string prepended by `buildBudgetAlertKey` in
`services/notifications.ts`. -/
def BUDGET_ALERT_KEY_BASE : String := "notifications_budget_alert_sent_"

/-- `buildBudgetAlertKey` from `services/notifications.ts`. -/
def buildBudgetAlertKey (categoryId : String) (monthKey : String) : String :=
  BUDGET_ALERT_KEY_BASE ++ categoryId ++ "_" ++ monthKey

/-- `hasBudgetAlertBeenSent` from `services/notifications.ts`, over the
modelled flag store. -/
def hasBudgetAlertBeenSent (flags : List String) (key : String) : Bool :=
  flags.contains key

/-- `markBudgetAlertSent` from `services/notifications.ts`, over the
modelled flag store. -/
def markBudgetAlertSent (flags : List String) (key : String) : List String :=
  key :: flags

/-- The spending reduction inside `evaluateBudgetAlert`: over the
updated transaction list, every expense transaction of the same
category whose month key matches contributes its magnitude
(`Math.abs` for negative amounts, the raw amount otherwise).  Here
`monthOf` is total because this path formats the date without a
validity check. -/
def alertTotalSpending (monthOf : String → String) (categoryId : Option String)
    (monthKey : String) (transactions : List Transaction) : Rat :=
  transactions.foldl
    (fun total txn =>
      if txn.type != TransactionType.expense || txn.categoryId != categoryId then total
      else if monthOf txn.date != monthKey then total
      else total + (if txn.amount < 0 then |txn.amount| else txn.amount))
    0

/-- Result of one run of `evaluateBudgetAlert`: whether the
notification was dispatched, and the flag store afterwards. -/
structure AlertResult where
  fired : Bool
  flags : List String
deriving DecidableEq, Repr

/-- `evaluateBudgetAlert` from `BudgetScreen.tsx`. -/
def evaluateBudgetAlert (monthOf : String → String) (budgets : List Budget)
    (flags : List String) (updatedTransaction : Transaction)
    (updatedTransactionsList : List Transaction) : AlertResult :=
  if updatedTransaction.type != TransactionType.expense
      || !strOptTruthy updatedTransaction.categoryId then
    { fired := false, flags := flags }
  else
    let monthKey := monthOf updatedTransaction.date
    match budgets.find? (fun budget =>
        some budget.categoryId == updatedTransaction.categoryId
          && budget.month == monthKey) with
    | none => { fired := false, flags := flags }
    | some matchingBudget =>
        if matchingBudget.amount ≤ 0 then { fired := false, flags := flags }
        else
          let totalSpending :=
            alertTotalSpending monthOf updatedTransaction.categoryId monthKey
              updatedTransactionsList
          let percentUsed := totalSpending / matchingBudget.amount
          if percentUsed < (9 : Rat) / 10 then { fired := false, flags := flags }
          else
            let alertKey := buildBudgetAlertKey (updatedTransaction.categoryId.getD "") monthKey
            if hasBudgetAlertBeenSent flags alertKey then { fired := false, flags := flags }
            else { fired := true, flags := markBudgetAlertSent flags alertKey }

/-!
Concrete sample data used by the counterexample and witness theorems.
-/

/-- A fixed date filter standing in for `buildInitialDateFilter()`. -/
def sampleDateFilter : DateFilter :=
  { preset := DateFilterPreset.thisMonth
    startDate := "2024-03-01T00:00:00.000Z"
    endDate := "2024-03-31T23:59:59.999Z" }

/-- The initial state at that date filter. -/
def sampleBaseState : AppState := initialState sampleDateFilter

/-- A March-2024 food expense of magnitude 95 (stored negative, as the
sign-type invariant requires). -/
def txGroceries : Transaction :=
  { id := "t1", title := "Groceries", amount := -95, date := "2024-03-05T12:00:00.000Z"
    categoryId := some "food", type := TransactionType.expense
    accountId := DEFAULT_ACCOUNT_ID, receiptUri := none }

/-- A March-2024 food expense of magnitude 5. -/
def txCoffee : Transaction :=
  { id := "t2", title := "Coffee", amount := -5, date := "2024-03-01T09:00:00.000Z"
    categoryId := some "food", type := TransactionType.expense
    accountId := DEFAULT_ACCOUNT_ID, receiptUri := none }

/-- A budget of 100 for the food category in March 2024. -/
def budgetFood100 : Budget :=
  { id := "b1", categoryId := "food", amount := 100, month := "2024-03" }

/-- A transaction whose category reference points at no category. -/
def txGhost : Transaction :=
  { id := "g1", title := "Ghost", amount := -3, date := "2024-03-02T00:00:00.000Z"
    categoryId := some "ghost-category", type := TransactionType.expense
    accountId := DEFAULT_ACCOUNT_ID, receiptUri := none }

/-- An account that is excluded from the aggregate balance. -/
def acctWallet : Account :=
  { id := "a1", name := "Wallet", type := AccountType.cash, accountNumber := "123"
    initialBalance := 0, includeInBalance := false }

/-- An update payload for `acctWallet` that supplies neither
`accountNumber` nor `includeInBalance`. -/
def walletUpdatePayload : AccountPayload :=
  { id := "a1", name := "Wallet", type := AccountType.cash, accountNumber := none
    initialBalance := 0, includeInBalance := none }

/-- The sample state holding only `acctWallet`. -/
def stateWithWallet : AppState := { sampleBaseState with accounts := [acctWallet] }

/-!
Claim theorems.
-/

/-- C1: the spec says budget progress for a (categoryId, month) pair is
`spent = sum of expense amounts`, `remaining = max 0 (amount - spent)`
and `progress = min 1 (spent / amount)`, with progress about 0.95 for
a budget of 100 against expenses totalling 95.  The code accumulates
the raw signed (negative) amounts of expense transactions, so at that
input it yields `spent = -95`, `remaining = 195` and
`progress = -0.95 < 0`, not the 0.95 the specification requires. -/
theorem budget_progress_failing_input :
    (budgetWithStats isoMonthKeyOpt [txGroceries] "2024-03" budgetFood100).spent = -95 ∧
    (budgetWithStats isoMonthKeyOpt [txGroceries] "2024-03" budgetFood100).remaining = 195 ∧
    (budgetWithStats isoMonthKeyOpt [txGroceries] "2024-03" budgetFood100).progress
      = -((19 : Rat) / 20) ∧
    (budgetWithStats isoMonthKeyOpt [txGroceries] "2024-03" budgetFood100).progress < 0 := by
  have hkey : isoMonthKeyOpt "2024-03-05T12:00:00.000Z" = some "2024-03" := by decide
  have hspent : expensesByCategoryGet isoMonthKeyOpt [txGroceries] "2024-03" "food" = -95 := by
    simp [expensesByCategoryGet, txGroceries, hkey, strOptTruthy]
  refine ⟨?_, ?_, ?_, ?_⟩ <;>
    simp [budgetWithStats, budgetFood100, hspent] <;>
    norm_num [min_def, max_def]

/-- C2: the spec says the derived expense total of a filtered set is
the sum of the absolute values of the negative amounts, a non-negative
number.  `HomeScreen` computes exactly that, but `SummaryScreen`
accumulates the raw signed amounts: on a single expense of magnitude 5
it yields -5 (and consequently a net balance of +5 instead of -5). -/
theorem summary_expense_total_failing_input :
    summaryTotalExpenses [txCoffee] = -5 ∧
    homeExpenseTotal [txCoffee] = 5 ∧
    summaryNetBalance [txCoffee] = 5 ∧
    summaryTotalExpenses [txCoffee] < 0 := by
  refine ⟨?_, ?_, ?_, ?_⟩ <;>
    simp [summaryTotalExpenses, summaryTotalIncome, summaryNetBalance, homeExpenseTotal,
      txCoffee]

/-- C4 counterexample: a state reachable from the initial state by a
single `ADD_TRANSACTION` action holds a transaction whose `categoryId`
is the id of no category in `state.categories` — `ensureTransaction`
validates `accountId` but passes `categoryId` through unchecked. -/
theorem dangling_categoryId_reachable :
    ((applyActions (initialState sampleDateFilter)
        [AppAction.addTransaction txGhost]).transactions.all
      (fun t =>
        (applyActions (initialState sampleDateFilter)
            [AppAction.addTransaction txGhost]).categories.any
          (fun c => some c.id == t.categoryId))) = false := by
  decide

/-- C5 counterexample: an `UPDATE_ACCOUNT` action whose payload
supplies neither `accountNumber` nor `includeInBalance`, applied to an
account whose `includeInBalance` is false, leaves `includeInBalance`
false — the update path falls back to the prior value rather than
re-defaulting it to true as the claim states. -/
theorem updateAccount_keeps_prior_includeInBalance :
    ((AppReducer stateWithWallet (AppAction.updateAccount walletUpdatePayload)).accounts.map
      Account.includeInBalance) = [false] := by
  decide

/-- Every reducer transition preserves non-emptiness of the category
list. -/
theorem categories_nonempty_step (s : AppState) (a : AppAction)
    (hs : s.categories ≠ []) : (AppReducer s a).categories ≠ [] := by
  cases a with
  | setCategories payload =>
      by_cases h : 0 < payload.length
      · simpa [AppReducer, h] using List.ne_nil_of_length_pos h
      · simp [AppReducer, h, DEFAULT_CATEGORIES]
  | addCategory payload => simp [AppReducer]
  | updateCategory payload => simpa [AppReducer] using hs
  | deleteCategory cid =>
      by_cases hdef : (cid == DEFAULT_CATEGORY_ID) = true
      · simpa [AppReducer, hdef] using hs
      · by_cases h : 0 < (s.categories.filter (fun c => c.id != cid)).length
        · simpa [AppReducer, hdef, h] using List.ne_nil_of_length_pos h
        · simp [AppReducer, hdef, h, DEFAULT_CATEGORIES]
  | addTransaction payload => simpa [AppReducer] using hs
  | updateTransaction payload => simpa [AppReducer] using hs
  | deleteTransaction id => simpa [AppReducer] using hs
  | setTransactions payload => simpa [AppReducer] using hs
  | setDateFilter payload => simpa [AppReducer] using hs
  | setBudgets payload => simpa [AppReducer] using hs
  | addBudget payload => simpa [AppReducer] using hs
  | updateBudget payload => simpa [AppReducer] using hs
  | deleteBudget id => simpa [AppReducer] using hs
  | setCurrency payload => simpa [AppReducer] using hs
  | setThemePreference payload => simpa [AppReducer] using hs
  | setAccounts payload => simpa [AppReducer] using hs
  | addAccount payload => simpa [AppReducer] using hs
  | updateAccount payload => simpa [AppReducer] using hs
  | deleteAccount id reassign => simpa [AppReducer] using hs
  | setNotificationPreferences payload => simpa [AppReducer] using hs

/-- Non-emptiness of the category list is preserved along any action
sequence. -/
theorem categories_nonempty_applyActions (s : AppState) (acts : List AppAction)
    (hs : s.categories ≠ []) : (applyActions s acts).categories ≠ [] := by
  induction acts generalizing s with
  | nil => simpa [applyActions] using hs
  | cons a rest ih =>
      simpa [applyActions, List.foldl_cons] using
        ih (AppReducer s a) (categories_nonempty_step s a hs)

/-- C7: a `DELETE_CATEGORY` action targeting the reserved
`"uncategorized"` id returns the state unchanged, and along every
action sequence from the initial state the category list stays
non-empty. -/
theorem deleteCategory_reserved_noop_and_categories_nonempty :
    (∀ s : AppState, AppReducer s (AppAction.deleteCategory DEFAULT_CATEGORY_ID) = s) ∧
    (∀ (df : DateFilter) (acts : List AppAction),
      0 < (applyActions (initialState df) acts).categories.length) := by
  constructor
  · intro s
    simp [AppReducer]
  · intro df acts
    have h := categories_nonempty_applyActions (initialState df) acts
      (by simp [initialState, DEFAULT_CATEGORIES])
    exact List.length_pos.mpr h

/-- The transaction written by `ensureTransaction` satisfies the
sign-type agreement, whatever the caller supplied in `type`. -/
theorem ensureTransaction_sign_type (s : AppState) (p : Transaction) :
    0 ≤ (ensureTransaction s p).amount ↔
      (ensureTransaction s p).type = TransactionType.income := by
  by_cases h : (0 : Rat) ≤ p.amount <;> simp [ensureTransaction, h]

/-- C3: from a state satisfying the sign-type agreement, every reducer
transition yields a state in which every transaction's amount is
non-negative exactly when its type is income — each write path
re-derives `type` from the sign of `amount` through
`ensureTransaction`, and the remaining transitions never change a
transaction's amount or type. -/
theorem appReducer_preserves_sign_type_agreement (s : AppState) (a : AppAction)
    (hs : ∀ t ∈ s.transactions, 0 ≤ t.amount ↔ t.type = TransactionType.income) :
    ∀ t ∈ (AppReducer s a).transactions, 0 ≤ t.amount ↔ t.type = TransactionType.income := by
  intro t ht
  cases a with
  | addTransaction p =>
      simp only [AppReducer, List.mem_cons] at ht
      rcases ht with h | h
      · rw [h]; exact ensureTransaction_sign_type s p
      · exact hs t h
  | updateTransaction p =>
      simp only [AppReducer] at ht
      obtain ⟨x, hx, hfx⟩ := List.mem_map.1 ht
      by_cases hid : (x.id == p.id) = true
      · rw [if_pos hid] at hfx
        rw [← hfx]; exact ensureTransaction_sign_type s p
      · rw [if_neg hid] at hfx
        rw [← hfx]; exact hs x hx
  | deleteTransaction id =>
      simp only [AppReducer] at ht
      exact hs t (List.mem_of_mem_filter ht)
  | setTransactions ps =>
      simp only [AppReducer] at ht
      obtain ⟨x, _, hfx⟩ := List.mem_map.1 ht
      rw [← hfx]; exact ensureTransaction_sign_type s x
  | setCategories ps => simp only [AppReducer] at ht; exact hs t ht
  | addCategory p => simp only [AppReducer] at ht; exact hs t ht
  | updateCategory p => simp only [AppReducer] at ht; exact hs t ht
  | deleteCategory cid =>
      by_cases hdef : (cid == DEFAULT_CATEGORY_ID) = true
      · simp only [AppReducer, if_pos hdef] at ht
        exact hs t ht
      · simp only [AppReducer, if_neg hdef] at ht
        obtain ⟨x, hx, hfx⟩ := List.mem_map.1 ht
        by_cases hc : (x.categoryId == some cid) = true
        · rw [if_pos hc] at hfx
          rw [← hfx]; simpa using hs x hx
        · rw [if_neg hc] at hfx
          rw [← hfx]; exact hs x hx
  | setDateFilter p => simp only [AppReducer] at ht; exact hs t ht
  | setBudgets p => simp only [AppReducer] at ht; exact hs t ht
  | addBudget p => simp only [AppReducer] at ht; exact hs t ht
  | updateBudget p => simp only [AppReducer] at ht; exact hs t ht
  | deleteBudget id => simp only [AppReducer] at ht; exact hs t ht
  | setCurrency p => simp only [AppReducer] at ht; exact hs t ht
  | setThemePreference p => simp only [AppReducer] at ht; exact hs t ht
  | setAccounts ps => simp only [AppReducer] at ht; exact hs t ht
  | addAccount p => simp only [AppReducer] at ht; exact hs t ht
  | updateAccount p => simp only [AppReducer] at ht; exact hs t ht
  | deleteAccount aid reassign =>
      simp only [AppReducer] at ht
      obtain ⟨x, hx, hfx⟩ := List.mem_map.1 ht
      have hbase := hs x (List.mem_of_mem_filter hx)
      rw [← hfx]
      split
      · split
        · split
          · exact hbase
          · simpa using hbase
        · exact hbase
      · exact hbase
  | setNotificationPreferences p => simp only [AppReducer] at ht; exact hs t ht

/-- Witness for C3 at a concrete input: the initial state (whose
transaction list is empty) and an `ADD_TRANSACTION` of an expense. -/
theorem appReducer_preserves_sign_type_agreement_witness :
    0 ≤ (ensureTransaction sampleBaseState txCoffee).amount ↔
      (ensureTransaction sampleBaseState txCoffee).type = TransactionType.income :=
  appReducer_preserves_sign_type_agreement sampleBaseState (AppAction.addTransaction txCoffee)
    (by simp [sampleBaseState, initialState])
    (ensureTransaction sampleBaseState txCoffee) (by simp [AppReducer])

/-- C4 amended: the reducer's cascade on category deletion never
leaves a transaction referencing the deleted (non-reserved) category:
after `DELETE_CATEGORY cid`, no transaction's `categoryId` is `cid` —
it has been rewritten to `"uncategorized"`.  (The stronger claim that
every reachable transaction's `categoryId` is the id of a present
category is false: `ADD_TRANSACTION` and `SET_CATEGORIES` do not
validate category references, see the counterexample.) -/
theorem deleteCategory_leaves_no_reference (s : AppState) (cid : String)
    (h : cid ≠ DEFAULT_CATEGORY_ID) :
    ∀ t ∈ (AppReducer s (AppAction.deleteCategory cid)).transactions,
      t.categoryId ≠ some cid := by
  intro t ht
  have hdef : (cid == DEFAULT_CATEGORY_ID) = false := by
    simpa using h
  simp only [AppReducer, hdef] at ht
  obtain ⟨x, _, hfx⟩ := List.mem_map.1 ht
  by_cases hc : (x.categoryId == some cid) = true
  · rw [if_pos hc] at hfx
    rw [← hfx]
    simpa using fun hcontra => h hcontra.symm
  · rw [if_neg hc] at hfx
    rw [← hfx]
    simpa using hc

/-- Witness for the amended C4 at a concrete input: deleting the
`"food"` category from a state holding a food transaction leaves the
rewritten transaction no longer referencing `"food"`. -/
theorem deleteCategory_leaves_no_reference_witness :
    ({ txCoffee with categoryId := some DEFAULT_CATEGORY_ID } : Transaction).categoryId
      ≠ some "food" :=
  deleteCategory_leaves_no_reference
    { sampleBaseState with transactions := [txCoffee] } "food" (by decide)
    { txCoffee with categoryId := some DEFAULT_CATEGORY_ID }
    (by simp [AppReducer, txCoffee, DEFAULT_CATEGORY_ID])

/-- C5 amended: `SET_ACCOUNTS` and `ADD_ACCOUNT` re-default a missing
`accountNumber` to the empty string and a missing `includeInBalance`
to true, exactly as in normalization; `UPDATE_ACCOUNT` re-defaults
`accountNumber` to the empty string but falls a missing
`includeInBalance` back to the account's prior value, not to true. -/
theorem account_write_defaulting (s : AppState) (ps : List AccountPayload)
    (p : AccountPayload)
    (hps : ∀ q ∈ ps, q.accountNumber = none ∧ q.includeInBalance = none)
    (hnum : p.accountNumber = none) (hinc : p.includeInBalance = none) :
    (∀ a ∈ (AppReducer s (AppAction.setAccounts ps)).accounts,
        a.accountNumber = "" ∧ a.includeInBalance = true) ∧
    (AppReducer s (AppAction.addAccount p)).accounts
      = s.accounts ++
          [{ id := p.id, name := p.name, type := p.type, accountNumber := ""
             initialBalance := p.initialBalance, includeInBalance := true }] ∧
    (AppReducer s (AppAction.updateAccount p)).accounts
      = s.accounts.map (fun a =>
          if (a.id == p.id) = true then
            { id := p.id, name := p.name, type := p.type, accountNumber := ""
              initialBalance := p.initialBalance, includeInBalance := a.includeInBalance }
          else a) := by
  refine ⟨?_, ?_, ?_⟩
  · intro a ha
    simp only [AppReducer] at ha
    obtain ⟨q, hq, hfq⟩ := List.mem_map.1 ha
    rw [← hfq]
    split at hq
    · obtain ⟨h1, h2⟩ := hps q hq
      simp [resolveAccountPayload, h1, h2]
    · rw [List.mem_singleton] at hq
      rw [hq]
      simp [resolveAccountPayload, accountToPayload, DEFAULT_ACCOUNT]
  · simp [AppReducer, resolveAccountPayload, hnum, hinc]
  · simp only [AppReducer]
    apply List.map_congr_left
    intro a _
    by_cases h : (a.id == p.id) = true
    · rw [if_pos h, if_pos h]
      simp [hnum, hinc]
    · rw [if_neg h, if_neg h]

/-- Witness for the amended C5 at a concrete input: adding an account
whose payload supplies neither optional field writes a record with the
empty account number and `includeInBalance` true. -/
theorem account_write_defaulting_witness :
    (AppReducer sampleBaseState (AppAction.addAccount walletUpdatePayload)).accounts
      = sampleBaseState.accounts ++
          [{ id := "a1", name := "Wallet", type := AccountType.cash, accountNumber := ""
             initialBalance := 0, includeInBalance := true }] :=
  (account_write_defaulting sampleBaseState [walletUpdatePayload] walletUpdatePayload
    (by intro q hq; rw [List.mem_singleton] at hq; rw [hq]; exact ⟨rfl, rfl⟩)
    rfl rfl).2.1

/-- Length of the account list after removing one id: removing the
matching records shortens the list by their count. -/
theorem length_filter_id_ne (l : List Account) (aid : String) :
    (l.filter (fun a => a.id != aid)).length + l.countP (fun a => a.id == aid) = l.length := by
  induction l with
  | nil => rfl
  | cons x xs ih =>
      by_cases h : (x.id == aid) = true
      · have h2 : (x.id != aid) = false := by simp [bne, h]
        simp only [List.filter_cons, List.countP_cons, h2, h, if_pos, if_neg,
          Bool.false_eq_true, if_false, if_true, List.length_cons]
        omega
      · have h2 : (x.id != aid) = true := by simp [bne, h]
        simp only [List.filter_cons, List.countP_cons, h2, h, Bool.false_eq_true,
          if_false, if_true, List.length_cons]
        omega

/-- The transaction list written by `DELETE_ACCOUNT` without a
reassignment target: exactly the transactions of the deleted account
are removed, the rest are untouched. -/
theorem deleteAccount_none_transactions (s : AppState) (aid : String) :
    (AppReducer s (AppAction.deleteAccount aid none)).transactions
      = s.transactions.filter (fun t => t.accountId != aid) := by
  show ((s.transactions.filter (fun t => t.accountId != aid || strOptTruthy none)).map
      (fun t => if (t.accountId == aid) = true then t else t)) = _
  simp [strOptTruthy]

/-- The account list written by `DELETE_ACCOUNT` does not depend on
the reassignment target: the remaining accounts, or the default Cash
account when none remain. -/
theorem deleteAccount_accounts (s : AppState) (aid : String) (ra : Option String) :
    (AppReducer s (AppAction.deleteAccount aid ra)).accounts
      = (if 0 < (s.accounts.filter (fun x => x.id != aid)).length
         then s.accounts.filter (fun x => x.id != aid) else [DEFAULT_ACCOUNT]) := rfl

/-- C6: deleting an account with a supplied (non-empty) reassignment
target rewrites exactly the transactions of the deleted account to the
target and removes none of them, while deleting without a target
removes exactly those transactions; in both forms the account count
decreases by one when the deleted id occurred once and other accounts
remain. -/
theorem deleteAccount_reassign_or_remove (s : AppState) (aid r : String)
    (hr : r ≠ "")
    (hcount : s.accounts.countP (fun a => a.id == aid) = 1)
    (hrem : s.accounts.filter (fun a => a.id != aid) ≠ []) :
    (AppReducer s (AppAction.deleteAccount aid (some r))).transactions
      = s.transactions.map (fun t =>
          if (t.accountId == aid) = true then { t with accountId := r } else t) ∧
    (AppReducer s (AppAction.deleteAccount aid (some r))).transactions.length
      = s.transactions.length ∧
    (AppReducer s (AppAction.deleteAccount aid none)).transactions
      = s.transactions.filter (fun t => t.accountId != aid) ∧
    (AppReducer s (AppAction.deleteAccount aid (some r))).accounts.length + 1
      = s.accounts.length ∧
    (AppReducer s (AppAction.deleteAccount aid none)).accounts.length + 1
      = s.accounts.length := by
  have hrb : (r == "") = false := by simpa using hr
  have hfilter : s.transactions.filter
      (fun t => t.accountId != aid || strOptTruthy (some r)) = s.transactions := by
    apply List.filter_eq_self.mpr
    intro t _
    simp [strOptTruthy, hrb]
  have h1 : (AppReducer s (AppAction.deleteAccount aid (some r))).transactions
      = s.transactions.map (fun t =>
          if (t.accountId == aid) = true then { t with accountId := r } else t) := by
    show ((s.transactions.filter (fun t => t.accountId != aid || strOptTruthy (some r))).map
        (fun t => if (t.accountId == aid) = true then
            (if (r == "") = true then t else { t with accountId := r }) else t)) = _
    rw [hfilter]
    apply List.map_congr_left
    intro t _
    by_cases h : (t.accountId == aid) = true
    · rw [if_pos h, if_pos h, if_neg (by simp [hrb])]
    · rw [if_neg h, if_neg h]
  have hacc : ∀ ra : Option String,
      (AppReducer s (AppAction.deleteAccount aid ra)).accounts.length + 1
        = s.accounts.length := by
    intro ra
    rw [deleteAccount_accounts s aid ra,
      if_pos (List.length_pos.mpr hrem)]
    have := length_filter_id_ne s.accounts aid
    omega
  exact ⟨h1, by rw [h1, List.length_map], deleteAccount_none_transactions s aid,
    hacc (some r), hacc none⟩

/-- First sample account for the deletion scenario. -/
def acctA1 : Account :=
  { id := "a1", name := "Checking", type := AccountType.bank, accountNumber := "111"
    initialBalance := 0, includeInBalance := true }

/-- Second sample account for the deletion scenario. -/
def acctA2 : Account :=
  { id := "a2", name := "Savings", type := AccountType.bank, accountNumber := "222"
    initialBalance := 0, includeInBalance := true }

/-- A transaction of the scenario, parameterized by id, stored on
account `"a1"`. -/
def txOnA1 (i : String) : Transaction :=
  { id := i, title := "Item", amount := -1, date := "2024-03-10T00:00:00.000Z"
    categoryId := some "other", type := TransactionType.expense
    accountId := "a1", receiptUri := none }

/-- The scenario state: two accounts and three transactions on the
first one. -/
def stateTwoAccounts : AppState :=
  { sampleBaseState with
      accounts := [acctA1, acctA2]
      transactions := [txOnA1 "t1", txOnA1 "t2", txOnA1 "t3"] }

/-- Witness for C6 at the spec's scenario: deleting account `"a1"`
holding three transactions with reassignment target `"a2"` rewrites
those transactions to `"a2"`. -/
theorem deleteAccount_reassign_or_remove_witness :
    (AppReducer stateTwoAccounts (AppAction.deleteAccount "a1" (some "a2"))).transactions
      = stateTwoAccounts.transactions.map (fun t =>
          if (t.accountId == "a1") = true then { t with accountId := "a2" } else t) :=
  (deleteAccount_reassign_or_remove stateTwoAccounts "a1" "a2" (by decide) (by decide)
    (by decide)).1

/-- C10: deleting the sole account of the list without a reassignment
target reseeds the account list with the single default Cash account
and removes every transaction of the deleted account; when the sole
account is the default Cash account itself, the account list is
unchanged while its transactions are still deleted. -/
theorem deleteAccount_sole_account (s : AppState) (a : Account)
    (hacc : s.accounts = [a]) :
    (AppReducer s (AppAction.deleteAccount a.id none)).accounts = [DEFAULT_ACCOUNT] ∧
    (AppReducer s (AppAction.deleteAccount a.id none)).transactions
      = s.transactions.filter (fun t => t.accountId != a.id) ∧
    (a = DEFAULT_ACCOUNT →
      (AppReducer s (AppAction.deleteAccount a.id none)).accounts = s.accounts) := by
  have hrem : s.accounts.filter (fun x => x.id != a.id) = [] := by
    rw [hacc]
    simp
  have h1 : (AppReducer s (AppAction.deleteAccount a.id none)).accounts
      = [DEFAULT_ACCOUNT] := by
    rw [deleteAccount_accounts s a.id none, hrem]
    simp
  exact ⟨h1, deleteAccount_none_transactions s a.id,
    fun ha => by rw [h1, hacc, ha]⟩

/-- Witness for C10 at a concrete input: the initial state (whose sole
account is the default Cash account) with one stored transaction;
deleting that account keeps the default account list and filters the
ledger. -/
theorem deleteAccount_sole_account_witness :
    (AppReducer { sampleBaseState with transactions := [txCoffee] }
        (AppAction.deleteAccount DEFAULT_ACCOUNT.id none)).accounts = [DEFAULT_ACCOUNT] ∧
    (AppReducer { sampleBaseState with transactions := [txCoffee] }
        (AppAction.deleteAccount DEFAULT_ACCOUNT.id none)).transactions
      = ({ sampleBaseState with transactions := [txCoffee] } : AppState).transactions.filter
          (fun t => t.accountId != DEFAULT_ACCOUNT.id) ∧
    (DEFAULT_ACCOUNT = DEFAULT_ACCOUNT →
      (AppReducer { sampleBaseState with transactions := [txCoffee] }
          (AppAction.deleteAccount DEFAULT_ACCOUNT.id none)).accounts
        = ({ sampleBaseState with transactions := [txCoffee] } : AppState).accounts) :=
  deleteAccount_sole_account { sampleBaseState with transactions := [txCoffee] }
    DEFAULT_ACCOUNT (by rfl)

/-- The normalizer's final `type` field is re-derived from the final
signed amount. -/
theorem normalizeTransaction_type_eq (now : String) (x : RawTransaction) :
    (normalizeTransaction now x).type
      = if 0 ≤ (normalizeTransaction now x).amount then TransactionType.income
        else TransactionType.expense := rfl

/-- The normalizer always resolves `categoryId` to a truthy (non-empty)
string: an explicit truthy id, a default-category id, or
`"uncategorized"`. -/
theorem normalizeTransaction_categoryId_truthy (now : String) (x : RawTransaction) :
    strOptTruthy (normalizeTransaction now x).categoryId = true := by
  have hdefault : ∀ c ∈ DEFAULT_CATEGORIES, (c.id == "") = false := by decide
  show strOptTruthy (some (if strOptTruthy x.categoryId = true then x.categoryId.getD ""
      else if strOptTruthy x.category = true then
        match DEFAULT_CATEGORIES.find? (fun category =>
            category.name.toLower == (x.category.getD "").toLower) with
        | some legacyMatch => legacyMatch.id
        | none => DEFAULT_CATEGORY_ID
      else DEFAULT_CATEGORY_ID)) = true
  simp only [strOptTruthy]
  split
  · next h =>
      cases hxc : x.categoryId with
      | none => rw [hxc] at h; simp [strOptTruthy] at h
      | some s => rw [hxc] at h; simpa [strOptTruthy] using h
  · split
    · split
      · next c hfind =>
          simpa using hdefault c (List.mem_of_find?_eq_some hfind)
      · decide
    · decide

/-- The normalizer always resolves `accountId` to a non-empty string:
an explicit truthy id or the default account id. -/
theorem normalizeTransaction_accountId_truthy (now : String) (x : RawTransaction) :
    ((normalizeTransaction now x).accountId == "") = false := by
  show ((if strOptTruthy x.accountId = true then x.accountId.getD ""
      else DEFAULT_ACCOUNT_ID) == "") = false
  split
  · next h =>
      cases hxa : x.accountId with
      | none => rw [hxa] at h; simp [strOptTruthy] at h
      | some s => rw [hxa] at h; simpa [strOptTruthy] using h
  · decide

/-- Any transaction whose `type` agrees with the sign of its `amount`,
whose `categoryId` is a truthy string and whose `accountId` is
non-empty — as is the case for every output of the normalizer — is a
fixed point of the normalizer. -/
theorem normalizeTransaction_fixed (now : String) (y : Transaction)
    (hty : y.type = if 0 ≤ y.amount then TransactionType.income else TransactionType.expense)
    (hcat : strOptTruthy y.categoryId = true)
    (hacct : (y.accountId == "") = false) :
    normalizeTransaction now (transactionToRaw y) = y := by
  obtain ⟨yid, ytitle, yamount, ydate, ycat, ytype, yacct, yuri⟩ := y
  dsimp only at hty hcat hacct
  obtain ⟨s, rfl⟩ : ∃ s, ycat = some s := by
    cases ycat with
    | none => simp [strOptTruthy] at hcat
    | some s => exact ⟨s, rfl⟩
  have hs : (s == "") = false := by simpa [strOptTruthy] using hcat
  unfold normalizeTransaction transactionToRaw
  by_cases h : (0 : Rat) ≤ yamount
  · rw [if_pos h] at hty
    simp [hty, hs, hacct, strOptTruthy, h, abs_of_nonneg h]
  · rw [if_neg h] at hty
    have hlt : yamount < 0 := lt_of_not_le h
    simp [hty, hs, hacct, strOptTruthy, h, abs_of_neg hlt]

/-- C8: the transaction normalizer is idempotent — re-normalizing its
own output (viewed as a raw record of the current shape) changes
nothing. -/
theorem normalizeTransaction_idempotent (now : String) (x : RawTransaction) :
    normalizeTransaction now (transactionToRaw (normalizeTransaction now x))
      = normalizeTransaction now x :=
  normalizeTransaction_fixed now (normalizeTransaction now x)
    (normalizeTransaction_type_eq now x)
    (normalizeTransaction_categoryId_truthy now x)
    (normalizeTransaction_accountId_truthy now x)

/-- Total month-key function for well-formed ISO-8601 date strings
(model of `format(new Date(d), 'yyyy-MM')` on the alert path, which
formats without a validity check). -/
def isoMonthKey (date : String) : String := date.take 7

/-- C9: under the guards of `evaluateBudgetAlert` (an expense with a
truthy category, a first matching budget for the transaction's month
with a positive amount), the alert fires exactly when the category's
month spending reaches 90 percent of the budget amount and the
idempotency flag for the (category, month) key is not yet set; firing
sets the flag, and once the flag is set a later qualifying run neither
fires nor changes the flag store. -/
theorem evaluateBudgetAlert_fires_iff_threshold_once (monthOf : String → String)
    (budgets : List Budget) (flags : List String) (tx : Transaction)
    (txs : List Transaction) (c : String) (b : Budget)
    (hty : tx.type = TransactionType.expense)
    (hcat : tx.categoryId = some c) (hc : c ≠ "")
    (hfind : budgets.find? (fun budget =>
        some budget.categoryId == tx.categoryId
          && budget.month == monthOf tx.date) = some b)
    (hamt : 0 < b.amount) :
    ((evaluateBudgetAlert monthOf budgets flags tx txs).fired = true ↔
      ((9 : Rat) / 10 * b.amount
          ≤ alertTotalSpending monthOf tx.categoryId (monthOf tx.date) txs ∧
        hasBudgetAlertBeenSent flags (buildBudgetAlertKey c (monthOf tx.date)) = false)) ∧
    ((evaluateBudgetAlert monthOf budgets flags tx txs).fired = true →
      hasBudgetAlertBeenSent (evaluateBudgetAlert monthOf budgets flags tx txs).flags
        (buildBudgetAlertKey c (monthOf tx.date)) = true) ∧
    (hasBudgetAlertBeenSent flags (buildBudgetAlertKey c (monthOf tx.date)) = true →
      (evaluateBudgetAlert monthOf budgets flags tx txs).fired = false ∧
      (evaluateBudgetAlert monthOf budgets flags tx txs).flags = flags) := by
  have hguard : (tx.type != TransactionType.expense || !strOptTruthy tx.categoryId) = false := by
    simp [hty, hcat, strOptTruthy, hc]
  have hkey : evaluateBudgetAlert monthOf budgets flags tx txs
      = (if alertTotalSpending monthOf tx.categoryId (monthOf tx.date) txs / b.amount
            < (9 : Rat) / 10
         then { fired := false, flags := flags }
         else if hasBudgetAlertBeenSent flags
            (buildBudgetAlertKey (tx.categoryId.getD "") (monthOf tx.date))
         then { fired := false, flags := flags }
         else { fired := true
                flags := markBudgetAlertSent flags
                  (buildBudgetAlertKey (tx.categoryId.getD "") (monthOf tx.date)) }) := by
    unfold evaluateBudgetAlert
    rw [if_neg (by simp [hguard])]
    simp only [hfind]
    rw [if_neg (not_le.mpr hamt)]
  have hgetD : tx.categoryId.getD "" = c := by rw [hcat]; rfl
  have hdiv : ¬(alertTotalSpending monthOf tx.categoryId (monthOf tx.date) txs / b.amount
      < (9 : Rat) / 10) ↔
      (9 : Rat) / 10 * b.amount
        ≤ alertTotalSpending monthOf tx.categoryId (monthOf tx.date) txs := by
    rw [not_lt, le_div_iff₀ hamt, mul_comm]
  rw [hkey, hgetD]
  by_cases h1 : alertTotalSpending monthOf tx.categoryId (monthOf tx.date) txs / b.amount
      < (9 : Rat) / 10
  · rw [if_pos h1]
    refine ⟨?_, by simp, fun h2 => ⟨rfl, rfl⟩⟩
    simp only [Bool.false_eq_true, false_iff]
    intro hcontra
    exact (hdiv.mpr hcontra.1) h1
  · rw [if_neg h1]
    by_cases h2 : hasBudgetAlertBeenSent flags (buildBudgetAlertKey c (monthOf tx.date)) = true
    · rw [if_pos h2]
      refine ⟨?_, by simp, fun _ => ⟨rfl, rfl⟩⟩
      simp [h2]
    · rw [if_neg h2]
      have h2f : hasBudgetAlertBeenSent flags (buildBudgetAlertKey c (monthOf tx.date))
          = false := by
        simpa using h2
      refine ⟨by simp [hdiv.mp h1, h2f], fun _ => ?_, fun hcontra => absurd hcontra h2⟩
      simp [hasBudgetAlertBeenSent, markBudgetAlertSent]

/-- Witness for C9 at the spec scenario: a 100 budget for food in
March 2024, an empty flag store, and a single stored food expense of
magnitude 95 for that month. -/
theorem evaluateBudgetAlert_fires_iff_threshold_once_witness :
    (evaluateBudgetAlert isoMonthKey [budgetFood100] [] txGroceries [txGroceries]).fired
        = true ↔
      ((9 : Rat) / 10 * budgetFood100.amount
          ≤ alertTotalSpending isoMonthKey txGroceries.categoryId
              (isoMonthKey txGroceries.date) [txGroceries] ∧
        hasBudgetAlertBeenSent []
          (buildBudgetAlertKey "food" (isoMonthKey txGroceries.date)) = false) :=
  (evaluateBudgetAlert_fires_iff_threshold_once isoMonthKey [budgetFood100] [] txGroceries
    [txGroceries] "food" budgetFood100 rfl rfl (by decide) (by decide) (by decide)).1

end ExpenseTracker
